import Mathlib

/-!
Verification of the `CustomPluginScanner` component of the plugin host
(`src/unnamed/part_000`, lines 30-178).

The scanner is embedded as a sequential state machine.  The scanner's member
fields become a `ScannerState`; one call to `findPluginTypesFor` consumes a
`CallEnv` describing the asynchronous inputs of that call (whether
`sendMessageToWorker` succeeded, which transport-thread handler invocations
landed before the post-wait checks ran, and the value of the host-wide
`shouldExit` predicate at those checks) and produces a `CallResult`.
Worker-process creations and destructions are recorded as an explicit event
trace so that the single-worker invariant can be stated over whole call
sequences.

External framework routines that the scanner calls but whose code is not part
of the sources under verification (`parseXML`, `PluginDescription::loadFromXml`,
`AudioPluginFormat::findAllTypesForFile`, `MemoryOutputStream::writeString`,
`PropertiesFile::getIntValue`) are modelled abstractly: their *results* are
inputs of the model, and the two that have a bit-level contract in the spec
(`writeString`, `getIntValue`) are modelled from the spec's words, marked as
such in their doc comments.
-/

set_option autoImplicit false

namespace PluginScanner

/-- Opaque plugin-descriptor metadata; the scanner only collects and counts
descriptors, never inspects them. -/
abbrev PluginDescription := String

/-- The result of `parseXML` on a worker reply, abstracted: a parsed reply is
the list of child elements of the root, and each child is abstracted to the
result of `PluginDescription::loadFromXml` on it (`some d` if the entry loads,
`none` if that individual entry is malformed).  `none` at the outer level is
an unparsable (or empty) reply. -/
abbrev XmlReply := List (Option PluginDescription)

/-- A transport-thread callback landing while the caller is blocked:
`message xml` is `Superprocess::handleMessageFromWorker` (lines 138-146) with
`xml` the `parseXML` result of the payload; `connLost` is
`Superprocess::handleConnectionLost` (lines 148-155). -/
inductive WorkerMsg where
  | message : Option XmlReply → WorkerMsg
  | connLost : WorkerMsg
deriving Repr, DecidableEq

/-- Lifecycle events of worker processes, recorded so the single-worker
invariant can be stated over traces.  `create i` is
`superprocess = std::make_unique<Superprocess>(*this)` (line 63), `destroy i`
is any `superprocess = nullptr` teardown of a live worker. -/
inductive WorkerEvent where
  | create : Nat → WorkerEvent
  | destroy : Nat → WorkerEvent
deriving Repr, DecidableEq

/-- The member fields of `CustomPluginScanner` (lines 168-175).  Worker
handles are given identities (`Nat`, drawn from `nextWorkerId`) so that the
event trace can name which worker is created or destroyed; the C++ holds the
live worker in the single `superprocess` slot, here `Option Nat`. -/
structure ScannerState where
  superprocess : Option Nat
  nextWorkerId : Nat
  gotResponse : Bool
  connectionLost : Bool
  pluginDescription : Option XmlReply
  scanInProcess : Bool
deriving Repr, DecidableEq

/-- The asynchronous environment of one `findPluginTypesFor` call:
`sendOk` is the return value of `sendMessageToWorker` (line 74); `events` are
the transport-thread handler invocations that landed before the post-wait
checks (lines 90-102) ran, in order; `exitFlag` is the value of the host-wide
`shouldExit()` predicate at those checks. -/
structure CallEnv where
  sendOk : Bool
  events : List WorkerMsg
  exitFlag : Bool
deriving Repr, DecidableEq

/-- The outcome of one `findPluginTypesFor` call.  `blocked = true` models the
execution in which the wait loop (lines 80-88) never observes
`gotResponse || shouldExit()` and the call never returns; `success` and
`added` are meaningful only when `blocked = false`.  `added` is the list of
descriptors appended to the caller's `result` array, and `sent` is the request
buffer passed to `sendMessageToWorker` (`none` if no send was attempted). -/
structure CallResult where
  state : ScannerState
  workerEvents : List WorkerEvent
  blocked : Bool
  success : Bool
  added : List PluginDescription
  sent : Option (List Nat)
deriving Repr, DecidableEq

/-- The three condition-variable-guarded fields as seen by the blocked call:
cleared at lines 76-78 (except `connectionLost`, which is cleared only on
worker creation, line 66) and then written by the transport-thread handlers. -/
structure WaitFlags where
  gotResponse : Bool
  connectionLost : Bool
  pluginDescription : Option XmlReply
deriving Repr, DecidableEq

/-- Effect of one transport-thread handler on the guarded fields:
`handleMessageFromWorker` stores the parsed reply and sets `gotResponse`
(lines 140-144); `handleConnectionLost` clears the stored reply and sets both
`gotResponse` and `connectionLost` (lines 150-153). -/
def applyMsg (f : WaitFlags) : WorkerMsg → WaitFlags
  | WorkerMsg.message xml =>
      { f with pluginDescription := xml, gotResponse := true }
  | WorkerMsg.connLost =>
      { gotResponse := true, connectionLost := true, pluginDescription := none }

/-- Lines 102-111: iterate the children of the stored reply, keep the entries
whose `loadFromXml` succeeds, skip the rest; a missing (`nullptr`) reply adds
nothing. -/
def decodeReply : Option XmlReply → List PluginDescription
  | none => []
  | some items => items.filterMap id

/-- Four little-endian bytes of a 32-bit length. -/
def u32le (n : Nat) : List Nat :=
  [n % 256, n / 256 % 256, n / 256 ^ 2 % 256, n / 256 ^ 3 % 256]

/-- Modelled from the spec: `MemoryOutputStream::writeString` is framework
code not under `src/`; the spec's wire format for each string field is
`[len:uint32][UTF-8 bytes]`.  Strings are carried as their UTF-8 byte lists. -/
def writeString (utf8Bytes : List Nat) : List Nat :=
  u32le utf8Bytes.length ++ utf8Bytes

/-- Lines 69-72: the request block is built by writing the format name and
then the file-or-identifier string into one stream. -/
def encodeScanRequest (formatName fileOrIdentifier : List Nat) : List Nat :=
  writeString formatName ++ writeString fileOrIdentifier

/-- The teardown events of assigning `superprocess = nullptr`. -/
def destroyEvents : Option Nat → List WorkerEvent
  | none => []
  | some i => [WorkerEvent.destroy i]

/-- `CustomPluginScanner::findPluginTypesFor` (lines 50-118).
`formatName` is `format.getName()` as UTF-8 bytes, `inProcessTypes` is the
(external) result of `format.findAllTypesForFile` for this file, and `env`
carries the asynchronous inputs of the call. -/
def findPluginTypesFor (s : ScannerState) (formatName fileOrIdentifier : List Nat)
    (inProcessTypes : List PluginDescription) (env : CallEnv) : CallResult :=
  if s.scanInProcess then
    { state := { s with superprocess := none },
      workerEvents := destroyEvents s.superprocess,
      blocked := false, success := true, added := inProcessTypes, sent := none }
  else
    let created := s.superprocess.isNone
    let s1 : ScannerState :=
      if created then
        { s with superprocess := some s.nextWorkerId,
                 nextWorkerId := s.nextWorkerId + 1,
                 connectionLost := false }
      else s
    let createEvents : List WorkerEvent :=
      if created then [WorkerEvent.create s.nextWorkerId] else []
    let msg := encodeScanRequest formatName fileOrIdentifier
    if env.sendOk then
      let waitStart : WaitFlags :=
        { gotResponse := false, connectionLost := s1.connectionLost,
          pluginDescription := none }
      let f := env.events.foldl applyMsg waitStart
      let s2 : ScannerState :=
        { s1 with gotResponse := f.gotResponse, connectionLost := f.connectionLost,
                  pluginDescription := f.pluginDescription }
      if f.gotResponse || env.exitFlag then
        if env.exitFlag then
          { state := { s2 with superprocess := none },
            workerEvents := createEvents ++ destroyEvents s2.superprocess,
            blocked := false, success := true, added := [], sent := some msg }
        else if f.connectionLost then
          { state := { s2 with superprocess := none },
            workerEvents := createEvents ++ destroyEvents s2.superprocess,
            blocked := false, success := false, added := [], sent := some msg }
        else
          { state := s2, workerEvents := createEvents,
            blocked := false, success := true,
            added := decodeReply f.pluginDescription, sent := some msg }
      else
        { state := s2, workerEvents := createEvents,
          blocked := true, success := false, added := [], sent := some msg }
    else
      { state := { s1 with superprocess := none },
        workerEvents := createEvents ++ destroyEvents s1.superprocess,
        blocked := false, success := false, added := [], sent := some msg }

/-- `CustomPluginScanner::scanFinished` (lines 120-123). -/
def scanFinished (s : ScannerState) : ScannerState × List WorkerEvent :=
  ({ s with superprocess := none }, destroyEvents s.superprocess)

/-- The settings store as seen through the one key the scanner reads:
the integer persisted under `"pluginScanMode"`, or `none` if absent. -/
abbrev SettingsStore := Option Int

/-- Modelled from the spec: `PropertiesFile::getIntValue` is framework code
not under `src/`; it yields the stored integer value of the key, and 0 when
the key is absent. -/
def getIntValue (store : SettingsStore) : Int :=
  store.getD 0

/-- `CustomPluginScanner::changeListenerCallback` (lines 162-166).  The outer
`Option` is whether `getUserSettings()` returned a non-null file; when it is
null the callback does nothing. -/
def changeListenerCallback (s : ScannerState) (userSettings : Option SettingsStore) :
    ScannerState :=
  match userSettings with
  | none => s
  | some store => { s with scanInProcess := decide (getIntValue store = 0) }

/-- The member-initializer values of the fields (lines 168-175):
no worker, flags clear, `scanInProcess` initialized `true`. -/
def initialFields : ScannerState :=
  { superprocess := none, nextWorkerId := 0, gotResponse := false,
    connectionLost := false, pluginDescription := none, scanInProcess := true }

/-- `CustomPluginScanner::CustomPluginScanner` (lines 36-42): fields take
their initializers, then `changeListenerCallback(nullptr)` runs once. -/
def mkCustomPluginScanner (userSettings : Option SettingsStore) : ScannerState :=
  changeListenerCallback initialFields userSettings

/-- A concurrent settings change landing at any point after a
`findPluginTypesFor` call has entered (i.e. after its single read of the
atomic `scanInProcess` at line 54).  The call body never reads
`scanInProcess` again and never writes it, so the interleaved write commutes
to the end of the call: the call itself behaves as `findPluginTypesFor` on
the entry state, and only the final `scanInProcess` differs. -/
def findPluginTypesForWithMidScanModeChange (s : ScannerState)
    (formatName fileOrIdentifier : List Nat)
    (inProcessTypes : List PluginDescription) (env : CallEnv)
    (userSettings : Option SettingsStore) : CallResult :=
  let r := findPluginTypesFor s formatName fileOrIdentifier inProcessTypes env
  { r with state := changeListenerCallback r.state userSettings }

/-- One operation of the scanner's public surface, for trace properties. -/
inductive ScannerOp where
  | scan : List Nat → List Nat → List PluginDescription → CallEnv → ScannerOp
  | finished : ScannerOp
  | modeChange : Option SettingsStore → ScannerOp
deriving Repr

/-- One step of the scanner: apply an operation, collecting worker events. -/
def stepOp (s : ScannerState) : ScannerOp → ScannerState × List WorkerEvent
  | ScannerOp.scan fn fi ip env =>
      let r := findPluginTypesFor s fn fi ip env
      (r.state, r.workerEvents)
  | ScannerOp.finished => scanFinished s
  | ScannerOp.modeChange u => (changeListenerCallback s u, [])

/-- Run a sequence of operations, concatenating the worker-event traces. -/
def runOps (s : ScannerState) : List ScannerOp → ScannerState × List WorkerEvent
  | [] => (s, [])
  | op :: rest =>
      let p := stepOp s op
      let q := runOps p.1 rest
      (q.1, p.2 ++ q.2)

/-- Checker state: the list of currently live worker ids, and whether the
one-live-worker bound has held after every event so far. -/
def applyEventChk (st : List Nat × Bool) (e : WorkerEvent) : List Nat × Bool :=
  let live : List Nat :=
    match e with
    | WorkerEvent.create i => i :: st.1
    | WorkerEvent.destroy i => st.1.erase i
  (live, st.2 && decide (live.length ≤ 1))

/-- `singleWorker evs` holds iff after every event of the trace at most one
worker is live (created and not yet destroyed). -/
def singleWorker (evs : List WorkerEvent) : Bool :=
  (evs.foldl applyEventChk ([], true)).2

/-! ### Helper lemmas about the guarded wait flags -/

theorem applyMsg_gotResponse (f : WaitFlags) (m : WorkerMsg) :
    (applyMsg f m).gotResponse = true := by
  cases m <;> rfl

theorem foldl_applyMsg_gotResponse_mono {es : List WorkerMsg} {f : WaitFlags}
    (h : f.gotResponse = true) : (es.foldl applyMsg f).gotResponse = true := by
  induction es generalizing f with
  | nil => exact h
  | cons e es ih => exact ih (applyMsg_gotResponse f e)

theorem foldl_applyMsg_gotResponse_of_mem {es : List WorkerMsg} {f : WaitFlags}
    {m : WorkerMsg} (h : m ∈ es) : (es.foldl applyMsg f).gotResponse = true := by
  induction es generalizing f with
  | nil => cases h
  | cons e es ih =>
    rcases List.mem_cons.mp h with h1 | h2
    · rw [List.foldl_cons]
      exact foldl_applyMsg_gotResponse_mono (applyMsg_gotResponse f e)
    · exact ih h2

theorem foldl_applyMsg_connectionLost_mono {es : List WorkerMsg} {f : WaitFlags}
    (h : f.connectionLost = true) : (es.foldl applyMsg f).connectionLost = true := by
  induction es generalizing f with
  | nil => exact h
  | cons e es ih =>
    cases e with
    | message xml => exact ih (by simpa [applyMsg] using h)
    | connLost => exact ih rfl

theorem foldl_applyMsg_connectionLost_of_mem {es : List WorkerMsg} {f : WaitFlags}
    (h : WorkerMsg.connLost ∈ es) : (es.foldl applyMsg f).connectionLost = true := by
  induction es generalizing f with
  | nil => cases h
  | cons e es ih =>
    rcases List.mem_cons.mp h with h1 | h2
    · subst h1
      rw [List.foldl_cons]
      exact foldl_applyMsg_connectionLost_mono rfl
    · exact ih h2

theorem foldl_applyMsg_connectionLost_of_not_mem {es : List WorkerMsg} {f : WaitFlags}
    (h : WorkerMsg.connLost ∉ es) :
    (es.foldl applyMsg f).connectionLost = f.connectionLost := by
  induction es generalizing f with
  | nil => rfl
  | cons e es ih =>
    have h1 : e ≠ WorkerMsg.connLost := fun he => h (he ▸ List.mem_cons_self e es)
    have h2 : WorkerMsg.connLost ∉ es := fun hm => h (List.mem_cons_of_mem e hm)
    cases e with
    | message xml =>
      rw [List.foldl_cons, ih h2]
      rfl
    | connLost => exact absurd rfl h1

/-! ### Claim theorems -/

/-- C1: if the host-wide shutdown predicate is true when the blocked wait's
post-wait checks run, `findPluginTypesFor` tears down the worker handle
(`superprocess` becomes `none`), returns success, and adds zero descriptors. -/
theorem shutdown_is_empty_success (s : ScannerState) (fn fi : List Nat)
    (ip : List PluginDescription) (env : CallEnv)
    (hMode : s.scanInProcess = false) (hSend : env.sendOk = true)
    (hExit : env.exitFlag = true) :
    (findPluginTypesFor s fn fi ip env).success = true ∧
    (findPluginTypesFor s fn fi ip env).added = [] ∧
    (findPluginTypesFor s fn fi ip env).state.superprocess = none ∧
    (findPluginTypesFor s fn fi ip env).blocked = false := by
  simp [findPluginTypesFor, hMode, hSend, hExit]

theorem shutdown_is_empty_success_witness :
    (findPluginTypesFor (mkCustomPluginScanner (some (some 1))) [86] [47] []
        ⟨true, [], true⟩).success = true ∧
    (findPluginTypesFor (mkCustomPluginScanner (some (some 1))) [86] [47] []
        ⟨true, [], true⟩).added = [] ∧
    (findPluginTypesFor (mkCustomPluginScanner (some (some 1))) [86] [47] []
        ⟨true, [], true⟩).state.superprocess = none ∧
    (findPluginTypesFor (mkCustomPluginScanner (some (some 1))) [86] [47] []
        ⟨true, [], true⟩).blocked = false :=
  shutdown_is_empty_success _ _ _ _ _ (by decide) rfl rfl

/-- C2: a failed send, and a connection loss observed while blocked waiting,
are handled identically: the worker handle is torn down (`superprocess`
becomes `none`) and the call returns failure. -/
theorem send_failure_and_connection_loss_identical (s : ScannerState)
    (fn fi : List Nat) (ip : List PluginDescription) (env : CallEnv)
    (hMode : s.scanInProcess = false) :
    (env.sendOk = false →
      (findPluginTypesFor s fn fi ip env).success = false ∧
      (findPluginTypesFor s fn fi ip env).state.superprocess = none ∧
      (findPluginTypesFor s fn fi ip env).blocked = false) ∧
    (env.sendOk = true → env.exitFlag = false → WorkerMsg.connLost ∈ env.events →
      (findPluginTypesFor s fn fi ip env).success = false ∧
      (findPluginTypesFor s fn fi ip env).state.superprocess = none ∧
      (findPluginTypesFor s fn fi ip env).blocked = false) := by
  constructor
  · intro hSend
    simp [findPluginTypesFor, hMode, hSend]
  · intro hSend hExit hLost
    simp [findPluginTypesFor, hMode, hSend, hExit,
      foldl_applyMsg_gotResponse_of_mem hLost,
      foldl_applyMsg_connectionLost_of_mem hLost]

theorem send_failure_and_connection_loss_identical_witness :
    ((findPluginTypesFor (mkCustomPluginScanner (some (some 1))) [86] [47] []
        ⟨false, [], false⟩).success = false ∧
     (findPluginTypesFor (mkCustomPluginScanner (some (some 1))) [86] [47] []
        ⟨false, [], false⟩).state.superprocess = none) ∧
    ((findPluginTypesFor (mkCustomPluginScanner (some (some 1))) [86] [47] []
        ⟨true, [WorkerMsg.connLost], false⟩).success = false ∧
     (findPluginTypesFor (mkCustomPluginScanner (some (some 1))) [86] [47] []
        ⟨true, [WorkerMsg.connLost], false⟩).state.superprocess = none) := by
  refine ⟨?_, ?_⟩
  · have h := (send_failure_and_connection_loss_identical
      (mkCustomPluginScanner (some (some 1))) [86] [47] []
      ⟨false, [], false⟩ (by decide)).1 rfl
    exact ⟨h.1, h.2.1⟩
  · have h := (send_failure_and_connection_loss_identical
      (mkCustomPluginScanner (some (some 1))) [86] [47] []
      ⟨true, [WorkerMsg.connLost], false⟩ (by decide)).2 rfl rfl
      (List.mem_cons_self _ _)
    exact ⟨h.1, h.2.1⟩

/-- C3: when a reply arrives (no shutdown, no connection loss), the call
returns success with exactly the descriptors decoded from the reply
(unparsable reply: zero descriptors; an entry failing to load is skipped),
and the worker handle stays live for the next call. -/
theorem reply_is_decoded_success (s : ScannerState) (fn fi : List Nat)
    (ip : List PluginDescription) (es : List WorkerMsg) (xml : Option XmlReply)
    (hMode : s.scanInProcess = false)
    (hClean : s.connectionLost = false ∨ s.superprocess = none)
    (hNoLost : WorkerMsg.connLost ∉ es) :
    (findPluginTypesFor s fn fi ip
        ⟨true, es ++ [WorkerMsg.message xml], false⟩).success = true ∧
    (findPluginTypesFor s fn fi ip
        ⟨true, es ++ [WorkerMsg.message xml], false⟩).added = decodeReply xml ∧
    (findPluginTypesFor s fn fi ip
        ⟨true, es ++ [WorkerMsg.message xml], false⟩).state.superprocess.isSome = true ∧
    (findPluginTypesFor s fn fi ip
        ⟨true, es ++ [WorkerMsg.message xml], false⟩).blocked = false := by
  have hmem : WorkerMsg.message xml ∈ es ++ [WorkerMsg.message xml] := by simp
  have hNoLost2 : WorkerMsg.connLost ∉ es ++ [WorkerMsg.message xml] := by
    simp [hNoLost]
  have hpd : ∀ w : WaitFlags,
      ((es ++ [WorkerMsg.message xml]).foldl applyMsg w).pluginDescription = xml := by
    intro w
    rw [List.foldl_append]
    rfl
  rcases hs : s.superprocess with _ | j
  · simp [findPluginTypesFor, hMode, hs, applyMsg,
      foldl_applyMsg_connectionLost_of_not_mem hNoLost]
  · have hc : s.connectionLost = false := by
      rcases hClean with h | h
      · exact h
      · rw [hs] at h
        cases h
    simp [findPluginTypesFor, hMode, hs, hc, applyMsg,
      foldl_applyMsg_connectionLost_of_not_mem hNoLost]

theorem reply_is_decoded_success_witness :
    (findPluginTypesFor (mkCustomPluginScanner (some (some 1))) [86] [47] []
        ⟨true, [WorkerMsg.message (some [some "a", none, some "b"])],
          false⟩).success = true ∧
    (findPluginTypesFor (mkCustomPluginScanner (some (some 1))) [86] [47] []
        ⟨true, [WorkerMsg.message (some [some "a", none, some "b"])],
          false⟩).added = ["a", "b"] ∧
    (findPluginTypesFor (mkCustomPluginScanner (some (some 1))) [86] [47] []
        ⟨true, [WorkerMsg.message (some [some "a", none, some "b"])],
          false⟩).state.superprocess.isSome = true := by
  have h := reply_is_decoded_success (mkCustomPluginScanner (some (some 1)))
    [86] [47] [] [] (some [some "a", none, some "b"]) (by decide)
    (Or.inr rfl) (by decide)
  simp only [List.nil_append] at h
  exact ⟨h.1, by rw [h.2.1]; rfl, h.2.2.1⟩

/-- C4: a call starting with the mode set to in-process discards any live
worker, delegates to the format's synchronous enumeration (the external
`findAllTypesForFile` result is appended unchanged), never interacts with a
worker (nothing sent, no worker created), and always returns success;
the whole outcome is independent of the asynchronous environment. -/
theorem inProcess_delegates_synchronously (s : ScannerState) (fn fi : List Nat)
    (ip : List PluginDescription) (env env' : CallEnv)
    (hMode : s.scanInProcess = true) :
    (findPluginTypesFor s fn fi ip env).success = true ∧
    (findPluginTypesFor s fn fi ip env).added = ip ∧
    (findPluginTypesFor s fn fi ip env).state.superprocess = none ∧
    (findPluginTypesFor s fn fi ip env).sent = none ∧
    (∀ i, WorkerEvent.create i ∉ (findPluginTypesFor s fn fi ip env).workerEvents) ∧
    findPluginTypesFor s fn fi ip env = findPluginTypesFor s fn fi ip env' := by
  refine ⟨by simp [findPluginTypesFor, hMode], by simp [findPluginTypesFor, hMode],
    by simp [findPluginTypesFor, hMode], by simp [findPluginTypesFor, hMode],
    ?_, by simp [findPluginTypesFor, hMode]⟩
  intro i
  cases hs : s.superprocess <;>
    simp [findPluginTypesFor, hMode, hs, destroyEvents]

theorem inProcess_delegates_synchronously_witness :
    (findPluginTypesFor (mkCustomPluginScanner (some (some 0))) [86] [47] ["p"]
        ⟨false, [WorkerMsg.connLost], true⟩).success = true ∧
    (findPluginTypesFor (mkCustomPluginScanner (some (some 0))) [86] [47] ["p"]
        ⟨false, [WorkerMsg.connLost], true⟩).added = ["p"] ∧
    (findPluginTypesFor (mkCustomPluginScanner (some (some 0))) [86] [47] ["p"]
        ⟨false, [WorkerMsg.connLost], true⟩).state.superprocess = none ∧
    findPluginTypesFor (mkCustomPluginScanner (some (some 0))) [86] [47] ["p"]
        ⟨false, [WorkerMsg.connLost], true⟩ =
      findPluginTypesFor (mkCustomPluginScanner (some (some 0))) [86] [47] ["p"]
        ⟨true, [], false⟩ := by
  have h := inProcess_delegates_synchronously (mkCustomPluginScanner (some (some 0)))
    [86] [47] ["p"] ⟨false, [WorkerMsg.connLost], true⟩ ⟨true, [], false⟩ (by decide)
  exact ⟨h.1, h.2.1, h.2.2.1, h.2.2.2.2.2⟩

/-- C9: when the post-wait checks see both the shutdown predicate true and
the connection-lost flag set, shutdown wins (it is checked first): the call
returns success with zero descriptors, not the connection-loss failure, and
the worker handle is torn down. -/
theorem shutdown_checked_before_connection_loss (s : ScannerState)
    (fn fi : List Nat) (ip : List PluginDescription) (env : CallEnv)
    (hMode : s.scanInProcess = false) (hSend : env.sendOk = true)
    (hExit : env.exitFlag = true) (hLost : WorkerMsg.connLost ∈ env.events) :
    (findPluginTypesFor s fn fi ip env).success = true ∧
    (findPluginTypesFor s fn fi ip env).state.connectionLost = true ∧
    (findPluginTypesFor s fn fi ip env).state.superprocess = none ∧
    (findPluginTypesFor s fn fi ip env).added = [] := by
  simp [findPluginTypesFor, hMode, hSend, hExit,
    foldl_applyMsg_connectionLost_of_mem hLost]

theorem shutdown_checked_before_connection_loss_witness :
    (findPluginTypesFor (mkCustomPluginScanner (some (some 1))) [86] [47] []
        ⟨true, [WorkerMsg.connLost], true⟩).success = true ∧
    (findPluginTypesFor (mkCustomPluginScanner (some (some 1))) [86] [47] []
        ⟨true, [WorkerMsg.connLost], true⟩).state.connectionLost = true ∧
    (findPluginTypesFor (mkCustomPluginScanner (some (some 1))) [86] [47] []
        ⟨true, [WorkerMsg.connLost], true⟩).state.superprocess = none ∧
    (findPluginTypesFor (mkCustomPluginScanner (some (some 1))) [86] [47] []
        ⟨true, [WorkerMsg.connLost], true⟩).added = [] :=
  shutdown_checked_before_connection_loss _ _ _ _ _ (by decide) rfl rfl
    (List.mem_cons_self _ _)

/-- C8: every request attempted on the worker is the two length-prefixed
UTF-8 strings, format name first, then file-or-identifier. -/
theorem scan_request_wire_format (s : ScannerState) (fn fi : List Nat)
    (ip : List PluginDescription) (env : CallEnv)
    (hMode : s.scanInProcess = false) :
    (findPluginTypesFor s fn fi ip env).sent =
      some (u32le fn.length ++ fn ++ (u32le fi.length ++ fi)) := by
  simp [findPluginTypesFor, hMode, apply_ite CallResult.sent, encodeScanRequest,
    writeString, List.append_assoc]

theorem scan_request_wire_format_witness :
    (findPluginTypesFor (mkCustomPluginScanner (some (some 1))) [86, 300] [47] []
        ⟨true, [], true⟩).sent =
      some (u32le 2 ++ [86, 300] ++ (u32le 1 ++ [47])) :=
  scan_request_wire_format _ _ _ _ _ (by decide)

/-- C6: each call reads the atomic mode flag once, at its start; a settings
change landing mid-call leaves the in-flight call's outcome untouched and
only determines the mode of subsequent calls. -/
theorem mode_read_once_at_call_start (s : ScannerState) (fn fi : List Nat)
    (ip : List PluginDescription) (env : CallEnv) (store : SettingsStore) :
    (findPluginTypesForWithMidScanModeChange s fn fi ip env (some store)).success =
      (findPluginTypesFor s fn fi ip env).success ∧
    (findPluginTypesForWithMidScanModeChange s fn fi ip env (some store)).added =
      (findPluginTypesFor s fn fi ip env).added ∧
    (findPluginTypesForWithMidScanModeChange s fn fi ip env (some store)).blocked =
      (findPluginTypesFor s fn fi ip env).blocked ∧
    (findPluginTypesForWithMidScanModeChange s fn fi ip env
        (some store)).state.superprocess =
      (findPluginTypesFor s fn fi ip env).state.superprocess ∧
    (findPluginTypesForWithMidScanModeChange s fn fi ip env
        (some store)).state.scanInProcess = decide (getIntValue store = 0) := by
  simp [findPluginTypesForWithMidScanModeChange, changeListenerCallback]

theorem foldl_applyMsg_pluginDescription_none {es : List WorkerMsg} {f : WaitFlags}
    (hnm : ∀ xml, WorkerMsg.message xml ∉ es) (hf : f.pluginDescription = none) :
    (es.foldl applyMsg f).pluginDescription = none := by
  induction es generalizing f with
  | nil => exact hf
  | cons e es ih =>
    cases e with
    | message xml => exact absurd (List.mem_cons_self _ _) (hnm xml)
    | connLost =>
      rw [List.foldl_cons]
      exact ih (fun xml h => hnm xml (List.mem_cons_of_mem _ h)) rfl

/-- C7: no reply is replayed.  The call's outcome is independent of whatever
`pluginDescription` payload and `gotResponse` flag were left over from an
earlier call (they are cleared before waiting), and a call during which no
reply message lands adds no descriptors even if a stale payload was stored. -/
theorem reply_consumed_at_most_once (s : ScannerState) (fn fi : List Nat)
    (ip : List PluginDescription) (env : CallEnv) (d : Option XmlReply) (g : Bool) :
    ((findPluginTypesFor { s with pluginDescription := d, gotResponse := g }
          fn fi ip env).success = (findPluginTypesFor s fn fi ip env).success ∧
     (findPluginTypesFor { s with pluginDescription := d, gotResponse := g }
          fn fi ip env).added = (findPluginTypesFor s fn fi ip env).added ∧
     (findPluginTypesFor { s with pluginDescription := d, gotResponse := g }
          fn fi ip env).blocked = (findPluginTypesFor s fn fi ip env).blocked ∧
     (findPluginTypesFor { s with pluginDescription := d, gotResponse := g }
          fn fi ip env).state.superprocess =
       (findPluginTypesFor s fn fi ip env).state.superprocess) ∧
    (s.scanInProcess = false → env.sendOk = true →
      (∀ xml, WorkerMsg.message xml ∉ env.events) →
      (findPluginTypesFor { s with pluginDescription := d, gotResponse := g }
          fn fi ip env).added = []) := by
  constructor
  · cases hm : s.scanInProcess
    · cases hs : s.superprocess <;> cases he : env.sendOk <;>
        simp only [findPluginTypesFor, hm, hs, he] <;> (try simp) <;>
        (repeat' split) <;> first | rfl | simp_all
    · simp [findPluginTypesFor, hm]
  · intro hm he hnm
    have hpd : ∀ f : WaitFlags, f.pluginDescription = none →
        decodeReply ((env.events.foldl applyMsg f).pluginDescription) = [] := by
      intro f hf
      rw [foldl_applyMsg_pluginDescription_none hnm hf]
      rfl
    cases hs : s.superprocess <;>
      simp only [findPluginTypesFor, hm, hs, he] <;> (try simp) <;>
      (repeat' split) <;> first | rfl | exact hpd _ rfl

theorem reply_consumed_at_most_once_witness :
    ((findPluginTypesFor
        { mkCustomPluginScanner (some (some 1)) with
            pluginDescription := some [some "stale"], gotResponse := true }
        [86] [47] [] ⟨true, [], true⟩).success =
      (findPluginTypesFor (mkCustomPluginScanner (some (some 1)))
        [86] [47] [] ⟨true, [], true⟩).success) ∧
    (findPluginTypesFor
        { mkCustomPluginScanner (some (some 1)) with
            pluginDescription := some [some "stale"], gotResponse := true }
        [86] [47] [] ⟨true, [], true⟩).added = [] := by
  have h := reply_consumed_at_most_once (mkCustomPluginScanner (some (some 1)))
    [86] [47] [] ⟨true, [], true⟩ (some [some "stale"]) true
  exact ⟨h.1.1, h.2 (by decide) rfl (fun xml => List.not_mem_nil _)⟩

/-- C10: the scan mode defaults to in-process: the field initializer is
`true`, the mode is re-read as "stored integer equals zero", an absent key
reads as zero, and out-of-process mode is active exactly when a nonzero
value is persisted. -/
theorem scan_mode_defaults_in_process :
    initialFields.scanInProcess = true ∧
    (mkCustomPluginScanner none).scanInProcess = true ∧
    (∀ store : SettingsStore, (mkCustomPluginScanner (some store)).scanInProcess =
      decide (getIntValue store = 0)) ∧
    getIntValue none = 0 ∧
    (∀ v : Int, (mkCustomPluginScanner (some (some v))).scanInProcess = false ↔ v ≠ 0) := by
  refine ⟨rfl, rfl, fun store => rfl, rfl, fun v => ?_⟩
  simp [mkCustomPluginScanner, changeListenerCallback, getIntValue, initialFields]

theorem scan_mode_defaults_in_process_witness :
    (mkCustomPluginScanner (some (some 1))).scanInProcess = false :=
  (scan_mode_defaults_in_process.2.2.2.2 1).mpr (by decide)

theorem stepOp_applyEventChk (s : ScannerState) (op : ScannerOp) (b : Bool) :
    (stepOp s op).2.foldl applyEventChk (s.superprocess.toList, b) =
      ((stepOp s op).1.superprocess.toList, b) := by
  cases op with
  | scan fn fi ip env =>
    cases hm : s.scanInProcess
    · cases hs : s.superprocess <;> cases he : env.sendOk <;>
        simp only [stepOp, findPluginTypesFor, hm, hs, he] <;> (try simp) <;>
        (repeat' split) <;> simp [applyEventChk, destroyEvents, hs]
    · cases hs : s.superprocess <;>
        simp [stepOp, findPluginTypesFor, hm, hs, applyEventChk, destroyEvents]
  | finished =>
    cases hs : s.superprocess <;>
      simp [stepOp, scanFinished, hs, applyEventChk, destroyEvents]
  | modeChange u =>
    cases u <;> simp [stepOp, changeListenerCallback, applyEventChk]

theorem runOps_applyEventChk (ops : List ScannerOp) : ∀ (s : ScannerState) (b : Bool),
    (runOps s ops).2.foldl applyEventChk (s.superprocess.toList, b) =
      ((runOps s ops).1.superprocess.toList, b) := by
  induction ops with
  | nil =>
    intro s b
    rfl
  | cons op rest ih =>
    intro s b
    simp only [runOps]
    rw [List.foldl_append, stepOp_applyEventChk]
    exact ih _ _

/-- C5: over every sequence of scanner operations starting from a fresh
scanner, at most one worker is live after every event of the worker-lifecycle
trace: creations happen only into an empty slot, and every teardown empties
the slot before any later creation. -/
theorem single_worker_invariant (userSettings : Option SettingsStore)
    (ops : List ScannerOp) :
    singleWorker (runOps (mkCustomPluginScanner userSettings) ops).2 = true := by
  have h0 : (mkCustomPluginScanner userSettings).superprocess.toList = [] := by
    cases userSettings <;> rfl
  unfold singleWorker
  have h := runOps_applyEventChk ops (mkCustomPluginScanner userSettings) true
  rw [h0] at h
  rw [h]

end PluginScanner
